import Mathlib

/-!
Verification of the conversion-orchestration subsystem of a file-converter
chat bot: the capability registry (extension → category → legal target
formats), the per-user session flow (file received → format chosen →
conversion attempt), temp-path allocation and cleanup, and the per-category
converter policies.  Python dictionaries are embedded as association lists,
dictionary lookups as `find?`, and the handlers as pure functions over an
explicit session/filesystem state.
-/

namespace FileConverter

/-- Mirrors `FILE_TYPE_MAP` of `app/keyboards/inline.py`: extension → file
type category. -/
def FILE_TYPE_MAP : List (String × String) :=
  [("jpg", "image"), ("jpeg", "image"), ("png", "image"),
   ("webp", "image"), ("bmp", "image"), ("heic", "image"),
   ("docx", "document"), ("doc", "document"), ("pdf", "pdf"),
   ("txt", "text"), ("rtf", "document"), ("odt", "document"),
   ("xlsx", "spreadsheet"), ("xls", "spreadsheet"), ("csv", "spreadsheet"),
   ("mp3", "audio"), ("ogg", "audio"), ("wav", "audio"),
   ("flac", "audio"), ("oga", "audio"),
   ("mp4", "video"), ("avi", "video"), ("mov", "video"), ("mkv", "video")]

/-- The `formats` lists of `CONVERSION_OPTIONS` in `app/keyboards/inline.py`,
keyed by file type category. -/
def CONVERSION_FORMATS : List (String × List String) :=
  [("image", ["jpg", "png", "webp", "bmp", "pdf"]),
   ("document", ["pdf", "txt", "docx"]),
   ("pdf", ["txt", "docx"]),
   ("text", ["pdf", "docx"]),
   ("spreadsheet", ["csv", "xlsx"]),
   ("audio", ["mp3", "ogg", "wav", "flac"]),
   ("video", ["mp4", "avi", "mkv"])]

/-- Python `str.lower()` on the basic latin range, character by character
(the same mapping `Char.toLower` performs). -/
def py_lower (s : String) : String :=
  ⟨s.data.map Char.toLower⟩

/-- Python `str.lstrip('.')`: drop leading dots. -/
def py_lstrip_dot (s : String) : String :=
  ⟨s.data.dropWhile (fun c => c == '.')⟩

/-- `get_file_type` of `app/keyboards/inline.py`: `FILE_TYPE_MAP.get(extension.lower())`. -/
def get_file_type (extension : String) : Option String :=
  (FILE_TYPE_MAP.find? (fun p => p.1 == py_lower extension)).map (·.2)

/-- `get_supported_extensions` of `app/keyboards/inline.py`. -/
def get_supported_extensions : List String :=
  FILE_TYPE_MAP.map (·.1)

/-- The extension normalisation both keyboard functions perform:
`file_extension.lower().lstrip('.')`. -/
def normalize_ext (file_extension : String) : String :=
  py_lstrip_dot (py_lower file_extension)

/-- The list of target format codes `create_format_keyboard` of
`app/keyboards/inline.py` puts on the keyboard: the category's formats with
the source extension excluded, jpg and jpeg excluding each other; `none`
when the extension is unsupported (the function returns `None`). -/
def create_format_keyboard_formats (file_extension : String) : Option (List String) :=
  let ext := normalize_ext file_extension
  match get_file_type ext with
  | none => none
  | some file_type =>
    match (CONVERSION_FORMATS.find? (fun p => p.1 == file_type)).map (·.2) with
    | none => none
    | some formats =>
      let exclude_formats := if ext == "jpg" || ext == "jpeg" then ["jpg", "jpeg"] else [ext]
      some (formats.filter (fun fmt => !(exclude_formats.contains fmt)))

/-- The `available_formats` list `get_conversion_info` of
`app/keyboards/inline.py` computes: the category's formats with only the
source extension itself excluded (`fmt != ext`). -/
def get_conversion_info_formats (file_extension : String) : Option (List String) :=
  let ext := normalize_ext file_extension
  match get_file_type ext with
  | none => none
  | some file_type =>
    match (CONVERSION_FORMATS.find? (fun p => p.1 == file_type)).map (·.2) with
    | none => none
    | some formats =>
      some (formats.filter (fun fmt => fmt != ext))

/-- The per-user FSM data `process_file` of `app/handlers/files.py` stores
(`file_id`, `file_name`, `file_extension`); `none` models a cleared session. -/
structure FSMData where
  file_id : String
  file_name : String
  file_extension : String
deriving DecidableEq

/-- The defaults `handle_conversion` of `app/handlers/callbacks.py` reads
out of a cleared session: `data.get("file_id", "")`, `data.get("file_name",
"file")`, `data.get("file_extension", "")`. -/
def get_state_data (stored : Option FSMData) : FSMData :=
  stored.getD ⟨"", "file", ""⟩

/-- Python `s.split(":")` on the character list: every colon separates,
and a string with no colon yields the one-element list. -/
def split_colon_chars : List Char → List (List Char)
  | [] => [[]]
  | c :: rest =>
    let r := split_colon_chars rest
    if c == ':' then [] :: r
    else
      match r with
      | h :: t => (c :: h) :: t
      | [] => [[c]]

/-- Python `s.split(":")`. -/
def py_split_colon (s : String) : List String :=
  (split_colon_chars s.data).map (fun cs => ⟨cs⟩)

/-- Python slicing `s[:n]`. -/
def py_take (n : Nat) (s : String) : String :=
  ⟨s.data.take n⟩

/-- The input temp path built in `handle_conversion`
(`app/handlers/callbacks.py` line 94):
`os.path.join(temp_dir, "input_{user_id}_{file_id[:8]}.{source_extension}")`. -/
def input_path_for (temp_dir : String) (user_id : Nat)
    (file_id source_extension : String) : String :=
  temp_dir ++ "/" ++ "input_" ++ toString user_id ++ "_" ++
    py_take 8 file_id ++ "." ++ source_extension

/-- The output temp path built in `handle_conversion`
(`app/handlers/callbacks.py` line 96):
`os.path.join(temp_dir, "output_{user_id}_{file_id[:8]}.{target_format}")`. -/
def output_path_for (temp_dir : String) (user_id : Nat)
    (file_id target_format : String) : String :=
  temp_dir ++ "/" ++ "output_" ++ toString user_id ++ "_" ++
    py_take 8 file_id ++ "." ++ target_format

/-- The `(inputPath, outputPath)` pair one conversion job allocates. -/
def allocate_paths (temp_dir : String) (user_id : Nat)
    (file_id source_extension target_format : String) : String × String :=
  (input_path_for temp_dir user_id file_id source_extension,
   output_path_for temp_dir user_id file_id target_format)

/-- How the `cvt:` callback handler resolves before any filesystem work:
malformed callback data, lost file info (the handler's stale-selection
branch), or a dispatched conversion attempt carrying the job tuple. -/
inductive ConvOutcome where
  | badCallbackData : ConvOutcome
  | fileInfoLost : ConvOutcome
  | attempt (input_path output_path source_format target_format : String) : ConvOutcome
deriving DecidableEq

/-- The validation-and-dispatch prefix of `handle_conversion` in
`app/handlers/callbacks.py` (lines 57–132): split the callback data on `:`
and require exactly two parts, read the stored file info, fail when the
stored `file_extension` or `file_id` is empty, otherwise build the temp
paths and dispatch `convert_file` with the stored source extension and the
chosen target format. -/
def handle_conversion (temp_dir : String) (callback_data : String) (user_id : Nat)
    (stored : Option FSMData) : ConvOutcome :=
  match py_split_colon callback_data with
  | [_, target_format] =>
    let d := get_state_data stored
    if d.file_extension == "" || d.file_id == "" then .fileInfoLost
    else
      .attempt (input_path_for temp_dir user_id d.file_id d.file_extension)
        (output_path_for temp_dir user_id d.file_id target_format)
        d.file_extension target_format
  | _ => .badCallbackData

/-- The world a conversion attempt acts on: the user's session slot and the
set of temp paths present on the filesystem. -/
structure World where
  session : Option FSMData
  files : List String
deriving DecidableEq

/-- One iteration of `cleanup_files` of `app/utils/converter_logic.py`:
`if os.path.exists(path): os.remove(path)`. -/
def remove_if_exists (files : List String) (path : String) : List String :=
  if path ∈ files then files.filter (fun q => q != path) else files

/-- `cleanup_files(*paths)` of `app/utils/converter_logic.py`: delete each
path that exists, left to right. -/
def cleanup_files (paths : List String) (files : List String) : List String :=
  paths.foldl remove_if_exists files

/-- The exit taken by the `try` body of `handle_conversion` once an attempt
starts: success, converter returned but the output artifact is missing,
`ConversionError` from the converter, an uncategorized fault, or a fault
while downloading (before the input temp file is written). -/
inductive AttemptExit where
  | success : AttemptExit
  | outputMissing : AttemptExit
  | toolFailure : AttemptExit
  | unexpectedFault : AttemptExit
  | downloadFault : AttemptExit
deriving DecidableEq

/-- The temp files the `try` body of `handle_conversion` leaves on disk at
the moment its exit is taken: the input file is written once the download
succeeds, the output file only when conversion succeeds. -/
def attempt_body_files (input_path output_path : String) (e : AttemptExit)
    (files : List String) : List String :=
  match e with
  | .downloadFault => files
  | .success => output_path :: input_path :: files
  | _ => input_path :: files

/-- A whole conversion attempt of `handle_conversion`
(`app/handlers/callbacks.py` lines 98–190): the `try` body runs to one of
its exits, then the `finally` block unconditionally clears the session
(`await state.clear()`) and runs `cleanup_files(input_path, output_path)`. -/
def run_conversion_attempt (input_path output_path : String) (e : AttemptExit)
    (w : World) : World :=
  { session := none,
    files := cleanup_files [input_path, output_path]
      (attempt_body_files input_path output_path e w.files) }

/-- The index of the last occurrence of `c`, as Python `str.rfind` returns
it (counting from the front), or `none` when `c` does not occur. -/
def last_index_of (c : Char) : List Char → Option Nat
  | [] => none
  | a :: rest =>
    match last_index_of c rest with
    | some i => some (i + 1)
    | none => if a == c then some 0 else none

/-- The final path component, as `pathlib.PurePath.name`: everything after
the last slash. -/
def python_name (file_name : String) : List Char :=
  match last_index_of '/' file_name.data with
  | some i => file_name.data.drop (i + 1)
  | none => file_name.data

/-- `pathlib.PurePath.suffix`: with `i = name.rfind('.')`, the slice
`name[i:]` when `0 < i < len(name) - 1`, else the empty string. -/
def python_suffix (file_name : String) : String :=
  let cs := python_name file_name
  match last_index_of '.' cs with
  | some i => if 0 < i ∧ i + 1 < cs.length then ⟨cs.drop i⟩ else ""
  | none => ""

/-- The extension `process_file` of `app/handlers/files.py` computes:
`Path(file_name).suffix.lower().lstrip('.') if file_name else ''`. -/
def process_file_extension (file_name : String) : String :=
  if file_name == "" then "" else py_lstrip_dot (py_lower (python_suffix file_name))

/-- The user-visible resolution of `process_file` in `app/handlers/files.py`:
rejected for size, rejected as unsupported, no available formats, keyboard
creation failed, or accepted with the listed available formats. -/
inductive FileOutcome where
  | sizeExceeded : FileOutcome
  | unsupportedFormat : FileOutcome
  | noFormatsAvailable : FileOutcome
  | keyboardFailure : FileOutcome
  | accepted (available_formats : List String) : FileOutcome
deriving DecidableEq

/-- `process_file` of `app/handlers/files.py` (lines 34–120) as a function of
the configured size limit, the incoming file and the user's session slot:
the size check (`file_size > MAX_FILE_SIZE`) runs first and returns with the
session untouched; then the extension is extracted and checked against the
supported list; then `get_conversion_info` and `create_format_keyboard`
must produce work to offer; only then is the pending request stored
(`state.update_data` + `state.set_state`). -/
def process_file (max_file_size : Nat) (file_id file_name : String) (file_size : Nat)
    (state : Option FSMData) : FileOutcome × Option FSMData :=
  if file_size > max_file_size then (.sizeExceeded, state)
  else
    let extension := process_file_extension file_name
    if extension == "" || !(get_supported_extensions.contains extension) then
      (.unsupportedFormat, state)
    else
      match get_conversion_info_formats extension with
      | none => (.noFormatsAvailable, state)
      | some available =>
        if available == [] then (.noFormatsAvailable, state)
        else
          match create_format_keyboard_formats extension with
          | none => (.keyboardFailure, state)
          | some _ => (.accepted available, some ⟨file_id, file_name, extension⟩)

/-- What `convert_image` of `app/utils/converter_logic.py` (lines 71–107)
does to the color mode before saving. -/
inductive ImagePrep where
  | compositeOnWhite : ImagePrep
  | convertToRGB : ImagePrep
  | passthrough : ImagePrep
deriving DecidableEq

/-- The mode-handling branch of `convert_image`: for targets jpg/jpeg/pdf
(lowercased), a transparent source mode (RGBA, P, LA) is composited onto a
white background, any other non-RGB mode is converted to RGB; for every
other target the mode is passed through. -/
def convert_image_prep (mode target_format : String) : ImagePrep :=
  if py_lower target_format == "jpg" || py_lower target_format == "jpeg" ||
      py_lower target_format == "pdf" then
    if mode == "RGBA" || mode == "P" || mode == "LA" then .compositeOnWhite
    else if mode != "RGB" then .convertToRGB
    else .passthrough
  else .passthrough

/-- The ffmpeg invocation `convert_video` of `app/utils/converter_logic.py`
assembles: input, output, the codec pair, and the `-y` flag
(overwrite-without-prompt) that is always passed. -/
structure FfmpegCall where
  input_path : String
  output_path : String
  vcodec : String
  acodec : String
  overwrite : Bool
deriving DecidableEq

/-- `codec_settings.get(target_format, copy/copy)` of `convert_video`
(`app/utils/converter_logic.py` lines 192–198). -/
def codec_settings (target_format : String) : String × String :=
  if target_format == "mp4" then ("libx264", "aac")
  else if target_format == "avi" then ("mpeg4", "mp3")
  else if target_format == "mkv" then ("libx264", "aac")
  else ("copy", "copy")

/-- The call `convert_video` makes to the external transcoder
(`app/utils/converter_logic.py` lines 200–210). -/
def convert_video_call (input_path output_path target_format : String) : FfmpegCall :=
  { input_path := input_path, output_path := output_path,
    vcodec := (codec_settings target_format).1,
    acodec := (codec_settings target_format).2,
    overwrite := true }

/-- A continuation byte of UTF-8: high bits `10`. -/
def utf8_cont (c : Fin 256) : Bool :=
  0x80 ≤ c.val && c.val < 0xC0

/-- A UTF-8 decoder for byte sequences (the codec the first `pd.read_csv`
attempt of `convert_spreadsheet` uses): `none` models
`UnicodeDecodeError`. -/
def utf8_decode : List (Fin 256) → Option (List Nat)
  | [] => some []
  | b :: rest =>
    if b.val < 0x80 then
      (utf8_decode rest).map (fun cs => b.val :: cs)
    else if b.val < 0xC2 then none
    else if b.val < 0xE0 then
      match rest with
      | c :: rest2 =>
        if utf8_cont c then
          (utf8_decode rest2).map
            (fun cs => ((b.val - 0xC0) * 64 + (c.val - 0x80)) :: cs)
        else none
      | [] => none
    else if b.val < 0xF0 then
      match rest with
      | c :: d :: rest2 =>
        if utf8_cont c && utf8_cont d then
          (utf8_decode rest2).map
            (fun cs => ((b.val - 0xE0) * 4096 + (c.val - 0x80) * 64 + (d.val - 0x80)) :: cs)
        else none
      | _ => none
    else if b.val < 0xF5 then
      match rest with
      | c :: d :: e :: rest2 =>
        if utf8_cont c && utf8_cont d && utf8_cont e then
          (utf8_decode rest2).map
            (fun cs => ((b.val - 0xF0) * 262144 + (c.val - 0x80) * 4096 +
              (d.val - 0x80) * 64 + (e.val - 0x80)) :: cs)
        else none
      | _ => none
    else none

/-- The CP1251 codepoint of one high byte (0x80–0xBF); byte 0x98 is
undefined in CP1251 and decoding it raises `UnicodeDecodeError`. -/
def cp1251_high (b : Nat) : Option Nat :=
  match b with
  | 0x80 => some 0x0402 | 0x81 => some 0x0403 | 0x82 => some 0x201A | 0x83 => some 0x0453
  | 0x84 => some 0x201E | 0x85 => some 0x2026 | 0x86 => some 0x2020 | 0x87 => some 0x2021
  | 0x88 => some 0x20AC | 0x89 => some 0x2030 | 0x8A => some 0x0409 | 0x8B => some 0x2039
  | 0x8C => some 0x040A | 0x8D => some 0x040C | 0x8E => some 0x040B | 0x8F => some 0x040F
  | 0x90 => some 0x0452 | 0x91 => some 0x2018 | 0x92 => some 0x2019 | 0x93 => some 0x201C
  | 0x94 => some 0x201D | 0x95 => some 0x2022 | 0x96 => some 0x2013 | 0x97 => some 0x2014
  | 0x99 => some 0x2122 | 0x9A => some 0x0459 | 0x9B => some 0x203A | 0x9C => some 0x045A
  | 0x9D => some 0x045C | 0x9E => some 0x045B | 0x9F => some 0x045F | 0xA0 => some 0x00A0
  | 0xA1 => some 0x040E | 0xA2 => some 0x045E | 0xA3 => some 0x0408 | 0xA4 => some 0x00A4
  | 0xA5 => some 0x0490 | 0xA6 => some 0x00A6 | 0xA7 => some 0x00A7 | 0xA8 => some 0x0401
  | 0xA9 => some 0x00A9 | 0xAA => some 0x0404 | 0xAB => some 0x00AB | 0xAC => some 0x00AC
  | 0xAD => some 0x00AD | 0xAE => some 0x00AE | 0xAF => some 0x0407 | 0xB0 => some 0x00B0
  | 0xB1 => some 0x00B1 | 0xB2 => some 0x0406 | 0xB3 => some 0x0456 | 0xB4 => some 0x0491
  | 0xB5 => some 0x00B5 | 0xB6 => some 0x00B6 | 0xB7 => some 0x00B7 | 0xB8 => some 0x0451
  | 0xB9 => some 0x2116 | 0xBA => some 0x0454 | 0xBB => some 0x00BB | 0xBC => some 0x0458
  | 0xBD => some 0x0405 | 0xBE => some 0x0455 | 0xBF => some 0x0457
  | _ => none

/-- The CP1251 codec: ASCII below 0x80, Cyrillic А..я for 0xC0–0xFF, the
table above for 0x80–0xBF. -/
def cp1251_byte (b : Fin 256) : Option Nat :=
  if b.val < 0x80 then some b.val
  else if 0xC0 ≤ b.val then some (0x410 + (b.val - 0xC0))
  else cp1251_high b.val

/-- The CP1251 decoder (the second `pd.read_csv` attempt). -/
def cp1251_decode (bs : List (Fin 256)) : Option (List Nat) :=
  bs.mapM cp1251_byte

/-- The latin-1 decoder (the third `pd.read_csv` attempt): every byte is its
own codepoint, so decoding never fails. -/
def latin1_decode (bs : List (Fin 256)) : Option (List Nat) :=
  some (bs.map (·.val))

/-- How the CSV read of `convert_spreadsheet` resolved: with one of the
listed encodings (the loop's `break`), or the for-else fallback that
re-reads with `errors="ignore"`. -/
inductive CsvRead where
  | withEncoding (encoding : String) (text : List Nat) : CsvRead
  | fallbackIgnoreErrors : CsvRead
deriving DecidableEq

/-- The decoder each name of the encoding list stands for. -/
def decode_with (encoding : String) (bs : List (Fin 256)) : Option (List Nat) :=
  if encoding == "utf-8" then utf8_decode bs
  else if encoding == "cp1251" then cp1251_decode bs
  else if encoding == "latin-1" then latin1_decode bs
  else none

/-- The encoding list of `convert_spreadsheet`
(`app/utils/converter_logic.py` line 310), in the order the loop tries
them. -/
def csv_encodings : List String :=
  ["utf-8", "cp1251", "latin-1"]

/-- The `for encoding in [...]` loop of `convert_spreadsheet` (lines
310–317): the first encoding that decodes breaks out of the loop; when all
raise, the for-else branch re-reads with `utf-8` and `errors="ignore"`. -/
def try_encodings (bs : List (Fin 256)) : List String → CsvRead
  | [] => .fallbackIgnoreErrors
  | e :: rest =>
    match decode_with e bs with
    | some text => .withEncoding e text
    | none => try_encodings bs rest

/-- Reading a `.csv` source in `convert_spreadsheet`. -/
def read_csv (bs : List (Fin 256)) : CsvRead :=
  try_encodings bs csv_encodings

/-- A CP1251-encoded sample (the word При in CP1251 plus ASCII `,1`):
its first byte 0xCF opens a UTF-8 two-byte sequence, but 0xF0 is not a
continuation byte, so the UTF-8 attempt fails. -/
def cp1251_sample : List (Fin 256) :=
  [0xCF, 0xF0, 0xE8, 0x2C, 0x31]

end FileConverter


namespace FileConverter

/-- A path removed by one `cleanup_files` iteration is gone afterwards. -/
theorem not_mem_remove_self (fs : List String) (p : String) :
    p ∉ remove_if_exists fs p := by
  unfold remove_if_exists
  split
  · simp [List.mem_filter]
  · assumption

/-- A `cleanup_files` iteration never brings a path back. -/
theorem not_mem_remove_of_not_mem (fs : List String) (p q : String) (h : p ∉ fs) :
    p ∉ remove_if_exists fs q := by
  unfold remove_if_exists
  split
  · intro hm
    exact h (List.mem_filter.mp hm).1
  · exact h

/-- Claim C1, evaluation at the failing input: for source extension `jpeg`
the `available_formats` list of `get_conversion_info` still contains `jpg`,
an alias of the source (both map to the image category), while
`create_format_keyboard` excludes both alias spellings for the same source. -/
theorem jpeg_alias_listed_by_get_conversion_info :
    get_conversion_info_formats "jpeg" = some ["jpg", "png", "webp", "bmp", "pdf"] ∧
    create_format_keyboard_formats "jpeg" = some ["png", "webp", "bmp", "pdf"] ∧
    get_file_type "jpg" = get_file_type "jpeg" := ⟨rfl, rfl, rfl⟩

/-- Claim C2, counterexample: with a stored `mp3` request, the callback
`cvt:png` is dispatched as a conversion attempt targeting `png`, although
`png` is not in the legal-target set recomputed from the stored source
extension `mp3` — the handler never recomputes that set. -/
theorem illegal_target_dispatched_cex :
    ("png" ∉ (create_format_keyboard_formats "mp3").getD []) ∧
    handle_conversion "/tmp" "cvt:png" 1 (some ⟨"AgACAgIAfoo", "song.mp3", "mp3"⟩) =
      .attempt "/tmp/input_1_AgACAgIA.mp3" "/tmp/output_1_AgACAgIA.png" "mp3" "png" :=
  ⟨by decide, by rfl⟩

/-- Claim C2, amended: the `cvt:` handler fails with its stale-selection
branch exactly when the stored file info is missing; whenever a stored
request exists and the callback parses, the chosen target is dispatched
as-is, with no check against the legal set recomputed from the stored
source extension. -/
theorem dispatch_skips_legal_set_revalidation
    (temp_dir callback_data target_format : String) (user_id : Nat) (d : FSMData)
    (hsplit : py_split_colon callback_data = ["cvt", target_format])
    (hext : d.file_extension ≠ "") (hid : d.file_id ≠ "") :
    handle_conversion temp_dir callback_data user_id (some d) =
      .attempt (input_path_for temp_dir user_id d.file_id d.file_extension)
        (output_path_for temp_dir user_id d.file_id target_format)
        d.file_extension target_format ∧
    handle_conversion temp_dir callback_data user_id none = .fileInfoLost := by
  unfold handle_conversion
  rw [hsplit]
  constructor
  · simp [get_state_data, hext, hid]
  · rfl

/-- Claim C2, witness for `dispatch_skips_legal_set_revalidation` at a
concrete stored request and callback. -/
theorem dispatch_skips_legal_set_revalidation_witness :
    (handle_conversion "/tmp" "cvt:docx" 7 (some ⟨"BAADBAAD", "notes.txt", "txt"⟩) =
      .attempt (input_path_for "/tmp" 7 "BAADBAAD" "txt")
        (output_path_for "/tmp" 7 "BAADBAAD" "docx") "txt" "docx") ∧
    handle_conversion "/tmp" "cvt:docx" 7 none = .fileInfoLost :=
  dispatch_skips_legal_set_revalidation "/tmp" "cvt:docx" "docx" 7
    ⟨"BAADBAAD", "notes.txt", "txt"⟩ (by decide) (by decide) (by decide)

/-- Claim C3: however the `try` body of a started conversion attempt exits
(success, missing output artifact, `ConversionError`, an unexpected fault,
or a fault before the input file was even written), the `finally` block
leaves the session cleared and both temp paths absent from the
filesystem. -/
theorem conversion_attempt_clears_session_and_temp_files
    (input_path output_path : String) (e : AttemptExit) (w : World) :
    (run_conversion_attempt input_path output_path e w).session = none ∧
    input_path ∉ (run_conversion_attempt input_path output_path e w).files ∧
    output_path ∉ (run_conversion_attempt input_path output_path e w).files := by
  refine ⟨rfl, ?_, ?_⟩
  · show input_path ∉ remove_if_exists (remove_if_exists _ input_path) output_path
    exact not_mem_remove_of_not_mem _ _ _ (not_mem_remove_self _ _)
  · show output_path ∉ remove_if_exists (remove_if_exists _ input_path) output_path
    exact not_mem_remove_self _ _

/-- Claim C4, counterexample: two jobs of the same user on the same file
handle with distinct target formats (`jpg` versus `bmp`) are allocated the
same input path — the input path does not depend on the target format. -/
theorem allocate_input_path_collision_cex :
    ("jpg" : String) ≠ "bmp" ∧
    (allocate_paths "/tmp" 1 "AgACAgIA" "png" "jpg").1 =
      (allocate_paths "/tmp" 1 "AgACAgIA" "png" "bmp").1 := ⟨by decide, rfl⟩

/-- Claim C4, amended: for two jobs of the same user and file handle with
distinct target formats, the output paths are distinct but the input paths
coincide — per-job uniqueness rests only on the user id, the first eight
characters of the file id, and the extension in the name. -/
theorem allocate_outputs_distinct_inputs_shared
    (temp_dir : String) (user_id : Nat) (file_id source_extension t1 t2 : String)
    (h : t1 ≠ t2) :
    (allocate_paths temp_dir user_id file_id source_extension t1).2 ≠
      (allocate_paths temp_dir user_id file_id source_extension t2).2 ∧
    (allocate_paths temp_dir user_id file_id source_extension t1).1 =
      (allocate_paths temp_dir user_id file_id source_extension t2).1 := by
  refine ⟨fun he => h ?_, rfl⟩
  have h2 := congrArg String.data he
  simp [allocate_paths, output_path_for, String.data_append] at h2
  exact String.ext h2

/-- Claim C4, witness for `allocate_outputs_distinct_inputs_shared` at a
concrete pair of jobs. -/
theorem allocate_outputs_distinct_inputs_shared_witness :
    (allocate_paths "/tmp" 1 "AgACAgIA" "png" "jpg").2 ≠
      (allocate_paths "/tmp" 1 "AgACAgIA" "png" "bmp").2 ∧
    (allocate_paths "/tmp" 1 "AgACAgIA" "png" "jpg").1 =
      (allocate_paths "/tmp" 1 "AgACAgIA" "png" "bmp").1 :=
  allocate_outputs_distinct_inputs_shared "/tmp" 1 "AgACAgIA" "png" "jpg" "bmp" (by decide)

/-- Claim C5: a file whose size exceeds the configured limit is rejected as
`SizeExceeded` with the session left untouched (no pending request is
created), for every file name — the size check precedes extension
extraction and classification, so an unsupported extension changes
nothing. -/
theorem oversized_file_rejected_before_classification
    (max_file_size : Nat) (file_id file_name : String) (file_size : Nat)
    (state : Option FSMData) (h : file_size > max_file_size) :
    process_file max_file_size file_id file_name file_size state = (.sizeExceeded, state) := by
  unfold process_file
  rw [if_pos h]

/-- Claim C5, witness: an oversized file with an unsupported extension is
still rejected as `SizeExceeded` with no pending request. -/
theorem oversized_file_rejected_before_classification_witness :
    process_file 52428800 "FID" "malware.exe" 52428801 none = (.sizeExceeded, none) :=
  oversized_file_rejected_before_classification 52428800 "FID" "malware.exe"
    52428801 none (by decide)

/-- Claim C6, counterexample: for the legal image target `bmp` (offered for
a `png` source) an `RGBA` image is not composited onto a white background —
its mode is passed through, because the flattening branch of
`convert_image` tests only for jpg, jpeg and pdf. -/
theorem bmp_target_transparency_passthrough_cex :
    convert_image_prep "RGBA" "bmp" = .passthrough ∧
    "bmp" ∈ (create_format_keyboard_formats "png").getD [] := ⟨rfl, by decide⟩

/-- Claim C6, amended: a transparent source mode (RGBA, P or LA) is
composited onto a white background exactly when the lowercased target is
jpg, jpeg or pdf; for every other target — bmp included — the color mode is
passed through. -/
theorem transparency_flattened_exactly_for_jpg_jpeg_pdf
    (mode target_format : String)
    (hm : mode = "RGBA" ∨ mode = "P" ∨ mode = "LA") :
    (convert_image_prep mode target_format = .compositeOnWhite ↔
      (py_lower target_format = "jpg" ∨ py_lower target_format = "jpeg" ∨
        py_lower target_format = "pdf")) ∧
    (convert_image_prep mode target_format = .passthrough ↔
      ¬(py_lower target_format = "jpg" ∨ py_lower target_format = "jpeg" ∨
        py_lower target_format = "pdf")) := by
  rcases hm with rfl | rfl | rfl <;>
    (by_cases hc : py_lower target_format = "jpg" ∨ py_lower target_format = "jpeg" ∨
        py_lower target_format = "pdf"
     · rcases hc with h | h | h <;> simp [convert_image_prep, h]
     · push_neg at hc
       simp [convert_image_prep, hc.1, hc.2.1, hc.2.2])

/-- Claim C6, witness for `transparency_flattened_exactly_for_jpg_jpeg_pdf`
at the RGBA/bmp instance. -/
theorem transparency_flattened_exactly_for_jpg_jpeg_pdf_witness :
    (convert_image_prep "RGBA" "bmp" = .compositeOnWhite ↔
      (py_lower "bmp" = "jpg" ∨ py_lower "bmp" = "jpeg" ∨ py_lower "bmp" = "pdf")) ∧
    (convert_image_prep "RGBA" "bmp" = .passthrough ↔
      ¬(py_lower "bmp" = "jpg" ∨ py_lower "bmp" = "jpeg" ∨ py_lower "bmp" = "pdf")) :=
  transparency_flattened_exactly_for_jpg_jpeg_pdf "RGBA" "bmp" (Or.inl rfl)

/-- Claim C7: when the bytes of a CSV source are not valid UTF-8 but decode
under CP1251, the encoding loop reads them with `cp1251`, the second entry
of its fixed ordered list, instead of failing on the first attempt. -/
theorem csv_cp1251_decoded_on_second_attempt
    (bs : List (Fin 256)) (t : List Nat)
    (h1 : utf8_decode bs = none) (h2 : cp1251_decode bs = some t) :
    read_csv bs = .withEncoding "cp1251" t := by
  unfold read_csv csv_encodings
  simp [try_encodings, decode_with, h1, h2]

/-- Claim C7, witness: a concrete CP1251-encoded byte sequence whose first
UTF-8 attempt fails is read via the second encoding. -/
theorem csv_cp1251_decoded_on_second_attempt_witness :
    read_csv cp1251_sample = .withEncoding "cp1251" [0x41F, 0x440, 0x438, 0x2C, 0x31] :=
  csv_cp1251_decoded_on_second_attempt cp1251_sample [0x41F, 0x440, 0x438, 0x2C, 0x31]
    (by decide) (by decide)

/-- Claim C8: the video converter maps avi to (mpeg4, mp3) and mp4 and mkv
to (libx264, aac); every target outside the mapping falls back to stream
copy, and the transcoder always receives the overwrite-without-prompt
flag. -/
theorem video_codec_mapping_and_overwrite
    (input_path output_path t : String)
    (h1 : t ≠ "mp4") (h2 : t ≠ "avi") (h3 : t ≠ "mkv") :
    (convert_video_call input_path output_path "avi").vcodec = "mpeg4" ∧
    (convert_video_call input_path output_path "avi").acodec = "mp3" ∧
    (convert_video_call input_path output_path "mp4").vcodec = "libx264" ∧
    (convert_video_call input_path output_path "mp4").acodec = "aac" ∧
    (convert_video_call input_path output_path "mkv").vcodec = "libx264" ∧
    (convert_video_call input_path output_path "mkv").acodec = "aac" ∧
    (convert_video_call input_path output_path t).vcodec = "copy" ∧
    (convert_video_call input_path output_path t).acodec = "copy" ∧
    (∀ s : String, (convert_video_call input_path output_path s).overwrite = true) := by
  refine ⟨rfl, rfl, rfl, rfl, rfl, rfl, ?_, ?_, fun _ => rfl⟩ <;>
    simp [convert_video_call, codec_settings, h1, h2, h3]

/-- Claim C8, witness for `video_codec_mapping_and_overwrite` at the
unmapped target `webm`. -/
theorem video_codec_mapping_and_overwrite_witness :
    (convert_video_call "/tmp/in.mp4" "/tmp/out.webm" "avi").vcodec = "mpeg4" ∧
    (convert_video_call "/tmp/in.mp4" "/tmp/out.webm" "avi").acodec = "mp3" ∧
    (convert_video_call "/tmp/in.mp4" "/tmp/out.webm" "mp4").vcodec = "libx264" ∧
    (convert_video_call "/tmp/in.mp4" "/tmp/out.webm" "mp4").acodec = "aac" ∧
    (convert_video_call "/tmp/in.mp4" "/tmp/out.webm" "mkv").vcodec = "libx264" ∧
    (convert_video_call "/tmp/in.mp4" "/tmp/out.webm" "mkv").acodec = "aac" ∧
    (convert_video_call "/tmp/in.mp4" "/tmp/out.webm" "webm").vcodec = "copy" ∧
    (convert_video_call "/tmp/in.mp4" "/tmp/out.webm" "webm").acodec = "copy" ∧
    (∀ s : String, (convert_video_call "/tmp/in.mp4" "/tmp/out.webm" s).overwrite = true) :=
  video_codec_mapping_and_overwrite "/tmp/in.mp4" "/tmp/out.webm" "webm"
    (by decide) (by decide) (by decide)

/-- Claim C9: latin-1 decodes every byte sequence (each byte is its own
codepoint), so the encoding loop always breaks on or before its third
attempt and the for-else fallback that re-reads with ignore-errors is
unreachable. -/
theorem csv_encoding_fallback_unreachable (bs : List (Fin 256)) :
    latin1_decode bs = some (bs.map (·.val)) ∧
    read_csv bs ≠ .fallbackIgnoreErrors := by
  refine ⟨rfl, ?_⟩
  unfold read_csv csv_encodings
  cases h1 : decode_with "utf-8" bs <;> simp [try_encodings, h1]
  cases h2 : decode_with "cp1251" bs <;>
    simp [try_encodings, h2, decode_with, latin1_decode]

/-- Claim C10: the size comparison of `process_file` is strict — the outcome
is `SizeExceeded` exactly when the file size is strictly greater than the
configured limit, so a file whose size equals the limit proceeds to
classification. -/
theorem size_limit_check_is_strict
    (max_file_size : Nat) (file_id file_name : String) (file_size : Nat)
    (state : Option FSMData) :
    (process_file max_file_size file_id file_name file_size state).1 = .sizeExceeded ↔
      file_size > max_file_size := by
  constructor
  · intro hout
    by_contra hgt
    unfold process_file at hout
    rw [if_neg hgt] at hout
    dsimp only at hout
    repeat' split at hout
    all_goals simp at hout
  · intro h
    unfold process_file
    rw [if_pos h]

end FileConverter
